import Mathlib

/-!
Shallow embedding of the hand-tracking / liquid-simulation demo
(`src/src/App.tsx` and the `LiquidSimulation` class), together with
theorems about its coordinate mapping, hand-proxy updates, particle
recoloring and the tracking component's asynchronous lifecycle.

Numbers are modelled as rationals (the source arithmetic contains only
+, -, *, /, min, max on IEEE doubles; we verify the ideal real-valued
arithmetic, in ℚ).
-/

namespace HandTracking

/-! ### Coordinate mapper (`App.tsx`, `onResults`, lines 193-210)

`W`/`H` are `window.innerWidth` / `window.innerHeight` (the viewport),
`cw`/`ch` are `canvas.width` / `canvas.height` (the frame), and
`nx`/`ny` the normalized landmark coordinates (`handPoint.x/y`). -/

/-- Source: `const scaleX = (window.innerWidth * 2.0) / canvas.width;` -/
def scaleX (W cw : ℚ) : ℚ := W * 2 / cw

/-- Source: `const scaleY = (window.innerHeight * 2.0) / canvas.height;` -/
def scaleY (H ch : ℚ) : ℚ := H * 2 / ch

/-- Source: `const offsetX = window.innerWidth * 0.5;` -/
def offsetX (W : ℚ) : ℚ := W * (1 / 2)

/-- Source: `const offsetY = window.innerHeight * 0.5;` -/
def offsetY (H : ℚ) : ℚ := H * (1 / 2)

/-- Source: `const mirroredX = window.innerWidth - (handPoint.x * canvas.width * scaleX - offsetX);` -/
def mirroredX (nx W cw : ℚ) : ℚ := W - (nx * cw * scaleX W cw - offsetX W)

/-- The pre-clamp y coordinate, `handPoint.y * canvas.height * scaleY - offsetY`
(the argument of the clamp on lines 207-208). -/
def preClampY (ny H ch : ℚ) : ℚ := ny * ch * scaleY H ch - offsetY H

/-- Source: `const x = Math.max(0, Math.min(window.innerWidth, mirroredX));` -/
def mappedX (nx W cw : ℚ) : ℚ := max 0 (min W (mirroredX nx W cw))

/-- Source: `const y = Math.max(0, Math.min(window.innerHeight, handPoint.y * canvas.height * scaleY - offsetY));` -/
def mappedY (ny H ch : ℚ) : ℚ := max 0 (min H (preClampY ny H ch))

/-- C1: the pre-clamp position is `x = W - (nx·2W - 0.5W)`, `y = ny·2H - 0.5H`,
independent of the frame size (`cw`, `ch` cancel); in particular normalized
(1/2, 1/2) on a 1920×1080 viewport with a 640×480 frame maps to the viewport
center (960, 540). -/
theorem coordinate_mapper_preclamp_formula (nx ny W H cw ch : ℚ)
    (hcw : cw ≠ 0) (hch : ch ≠ 0) :
    mirroredX nx W cw = W - (nx * (2 * W) - W / 2) ∧
    preClampY ny H ch = ny * (2 * H) - H / 2 ∧
    mirroredX (1 / 2) 1920 640 = 960 ∧
    preClampY (1 / 2) 1080 480 = 540 := by
  refine ⟨?_, ?_, by norm_num [mirroredX, scaleX, offsetX], by norm_num [preClampY, scaleY, offsetY]⟩
  · unfold mirroredX scaleX offsetX
    field_simp
    ring
  · unfold preClampY scaleY offsetY
    field_simp
    ring

/-- Witness for C1 at nx = ny = 1/2, W = 1920, H = 1080, cw = 640, ch = 480. -/
theorem coordinate_mapper_preclamp_formula_witness :
    mirroredX (1 / 2) 1920 640 = 1920 - ((1 / 2 : ℚ) * (2 * 1920) - 1920 / 2) ∧
    preClampY (1 / 2) 1080 480 = (1 / 2 : ℚ) * (2 * 1080) - 1080 / 2 := by
  have h := coordinate_mapper_preclamp_formula (1 / 2) (1 / 2) 1920 1080 640 480
    (by norm_num) (by norm_num)
  exact ⟨h.1, h.2.1⟩

/-- C2: for any normalized input (in [0,1]×[0,1] or not) and any viewport with
nonnegative dimensions, the coordinates passed to `onHandUpdate` lie in
[0, W]×[0, H]: out-of-range inputs are clamped, never rejected. -/
theorem coordinate_mapper_clamped (nx ny W H cw ch : ℚ) (hW : 0 ≤ W) (hH : 0 ≤ H) :
    0 ≤ mappedX nx W cw ∧ mappedX nx W cw ≤ W ∧
    0 ≤ mappedY ny H ch ∧ mappedY ny H ch ≤ H := by
  refine ⟨le_max_left 0 _, ?_, le_max_left 0 _, ?_⟩
  · exact max_le hW (min_le_left _ _)
  · exact max_le hH (min_le_left _ _)

/-- Witness for C2 at nx = 3, ny = -2 (out of range), W = 1920, H = 1080,
cw = 640, ch = 480. -/
theorem coordinate_mapper_clamped_witness :
    0 ≤ mappedX 3 1920 640 ∧ mappedX 3 1920 640 ≤ 1920 ∧
    0 ≤ mappedY (-2) 1080 480 ∧ mappedY (-2) 1080 480 ≤ 1080 :=
  coordinate_mapper_clamped 3 (-2) 1920 1080 640 480 (by norm_num) (by norm_num)

/-- C3: for a fixed viewport, mapping normalized x = 0 and x = 1 gives output
x coordinates that are mirror images around W/2: their sum is W. -/
theorem coordinate_mapper_mirror (W cw : ℚ) (hW : 0 ≤ W) (hcw : cw ≠ 0) :
    mappedX 0 W cw + mappedX 1 W cw = W := by
  have h0 : mirroredX 0 W cw = W + W / 2 := by
    unfold mirroredX scaleX offsetX; ring
  have h1 : mirroredX 1 W cw = -(W / 2) := by
    unfold mirroredX scaleX offsetX
    field_simp
    ring
  have hhalf : 0 ≤ W / 2 := by linarith
  have e0 : mappedX 0 W cw = W := by
    unfold mappedX
    rw [h0, min_eq_left (by linarith), max_eq_right hW]
  have e1 : mappedX 1 W cw = 0 := by
    unfold mappedX
    rw [h1, min_eq_right (by linarith), max_eq_left (by linarith)]
  rw [e0, e1, add_zero]

/-- Witness for C3 at W = 1920, cw = 640. -/
theorem coordinate_mapper_mirror_witness :
    mappedX 0 1920 640 + mappedX 1 1920 640 = 1920 :=
  coordinate_mapper_mirror 1920 640 (by norm_num) (by norm_num)

end HandTracking

namespace LiquidSim

/-! ### `LiquidSimulation` (unnamed source file, Matter.js driver)

A `Body` models a Matter.js body as its identity, position, velocity,
accumulated force and render stroke color (hsl components). `Matter.Body`
mutators become pure functions. -/

structure Vec2 where
  x : ℚ
  y : ℚ
  deriving DecidableEq, Repr

structure Body where
  /-- Matter assigns each created body a distinct id; it is never mutated.
  We use it to track body identity across updates. -/
  id : ℕ
  position : Vec2
  velocity : Vec2
  force : Vec2
  strokeHue : ℚ
  strokeSat : ℚ
  strokeLight : ℚ
  deriving DecidableEq, Repr

/-- Source: `Matter.Body.applyForce(body, body.position, f)` accumulates `f` into
`body.force` (applied at the centre, so no torque arises). -/
def applyForce (b : Body) (f : Vec2) : Body :=
  { b with force := ⟨b.force.x + f.x, b.force.y + f.y⟩ }

/-- Source: `Matter.Body.setVelocity`. -/
def setVelocity (b : Body) (v : Vec2) : Body :=
  { b with velocity := v }

/-- Source: `Matter.Body.setPosition`. -/
def setPosition (b : Body) (p : Vec2) : Body :=
  { b with position := p }

structure LiquidSimulation where
  leftHandBody : Body
  rightHandBody : Body
  particles : List Body
  deriving DecidableEq, Repr

/-- Source: `Matter.Bodies.circle(0, 0, 50, ...)` for the left hand proxy: created at
position (0,0), at rest, with no accumulated force. Matter gives it its own
id, modelled as 0. -/
def leftHandBody0 : Body :=
  { id := 0, position := ⟨0, 0⟩, velocity := ⟨0, 0⟩, force := ⟨0, 0⟩,
    strokeHue := 0, strokeSat := 0, strokeLight := 0 }

/-- Source: `Matter.Bodies.circle(0, 0, 50, ...)` for the right hand proxy, id 1. -/
def rightHandBody0 : Body :=
  { id := 1, position := ⟨0, 0⟩, velocity := ⟨0, 0⟩, force := ⟨0, 0⟩,
    strokeHue := 0, strokeSat := 0, strokeLight := 0 }

/-- The constructor: both hand bodies are created once and added to the world,
together with the particles (whose random initial placement is abstracted as
the parameter `ps`). -/
def initSim (ps : List Body) : LiquidSimulation :=
  { leftHandBody := leftHandBody0, rightHandBody := rightHandBody0, particles := ps }

/-- The hand bodies present in the world (exactly the two created by the
constructor; `updateHandPosition` never adds or removes one). -/
def handBodies (sim : LiquidSimulation) : List Body :=
  [sim.leftHandBody, sim.rightHandBody]

/-- The body of `updateHandPosition` applied to the selected hand body.
`r1`, `r2` are the two `Math.random()` draws (in [0,1)); `0.0001 = 1/10000`
and `1.2 = 6/5`:
```
Matter.Body.applyForce(handBody, handBody.position, {
  x: (Math.random() - 0.5) * 0.0001, y: (Math.random() - 0.5) * 0.0001 });
const currentPos = handBody.position;
const dx = x - currentPos.x; const dy = y - currentPos.y;
Matter.Body.setVelocity(handBody, { x: dx * 1.2, y: dy * 1.2 });
Matter.Body.setPosition(handBody, { x: x, y: y });
``` -/
def updateHandBody (handBody : Body) (x y r1 r2 : ℚ) : Body :=
  let b1 := applyForce handBody ⟨(r1 - 1 / 2) * (1 / 10000), (r2 - 1 / 2) * (1 / 10000)⟩
  let currentPos := b1.position
  let dx := x - currentPos.x
  let dy := y - currentPos.y
  let b2 := setVelocity b1 ⟨dx * (6 / 5), dy * (6 / 5)⟩
  setPosition b2 ⟨x, y⟩

/-- Source: `updateHandPosition(handIndex, x, y)`:
`const handBody = handIndex === 0 ? this.leftHandBody : this.rightHandBody;`
followed by the force/velocity/position update of that body. -/
def updateHandPosition (sim : LiquidSimulation) (handIndex : ℤ) (x y r1 r2 : ℚ) :
    LiquidSimulation :=
  if handIndex = 0 then
    { sim with leftHandBody := updateHandBody sim.leftHandBody x y r1 r2 }
  else
    { sim with rightHandBody := updateHandBody sim.rightHandBody x y r1 r2 }

/-- One recorded call of `updateHandPosition`: the index, target, and the two
random draws. -/
structure HandUpdate where
  handIndex : ℤ
  x : ℚ
  y : ℚ
  r1 : ℚ
  r2 : ℚ

/-- Run a sequence of `updateHandPosition` calls. -/
def runUpdates (sim : LiquidSimulation) (us : List HandUpdate) : LiquidSimulation :=
  us.foldl (fun s u => updateHandPosition s u.handIndex u.x u.y u.r1 u.r2) sim

/-- C4: each `updateHandPosition(handIndex, x, y)` call adds to the selected
proxy a random force with both components in [-0.00005, 0.00005], sets its
velocity to exactly 1.2 times the displacement from its current position to
the target, and sets its position to exactly (x, y). -/
theorem updateHandPosition_contract (sim : LiquidSimulation) (handIndex : ℤ)
    (x y r1 r2 : ℚ) (h1 : 0 ≤ r1) (h2 : r1 ≤ 1) (h3 : 0 ≤ r2) (h4 : r2 ≤ 1) :
    let b0 := if handIndex = 0 then sim.leftHandBody else sim.rightHandBody
    let sim' := updateHandPosition sim handIndex x y r1 r2
    let b := if handIndex = 0 then sim'.leftHandBody else sim'.rightHandBody
    (-(1 / 20000) ≤ b.force.x - b0.force.x ∧ b.force.x - b0.force.x ≤ 1 / 20000) ∧
    (-(1 / 20000) ≤ b.force.y - b0.force.y ∧ b.force.y - b0.force.y ≤ 1 / 20000) ∧
    b.velocity = ⟨(x - b0.position.x) * (6 / 5), (y - b0.position.y) * (6 / 5)⟩ ∧
    b.position = ⟨x, y⟩ := by
  have key : ∀ b0 : Body,
      (-(1 / 20000) ≤ (updateHandBody b0 x y r1 r2).force.x - b0.force.x ∧
        (updateHandBody b0 x y r1 r2).force.x - b0.force.x ≤ 1 / 20000) ∧
      (-(1 / 20000) ≤ (updateHandBody b0 x y r1 r2).force.y - b0.force.y ∧
        (updateHandBody b0 x y r1 r2).force.y - b0.force.y ≤ 1 / 20000) ∧
      (updateHandBody b0 x y r1 r2).velocity =
        ⟨(x - b0.position.x) * (6 / 5), (y - b0.position.y) * (6 / 5)⟩ ∧
      (updateHandBody b0 x y r1 r2).position = ⟨x, y⟩ := by
    intro b0
    unfold updateHandBody applyForce setVelocity setPosition
    refine ⟨⟨?_, ?_⟩, ⟨?_, ?_⟩, rfl, rfl⟩ <;> simp only <;> linarith
  by_cases h : handIndex = 0 <;>
    simp only [updateHandPosition, h, if_true, if_false, reduceIte] <;>
    exact key _

/-- Witness for C4: index 0, target (100, 200), draws r1 = 0, r2 = 1, starting
from the freshly constructed simulation. -/
theorem updateHandPosition_contract_witness :
    let sim := initSim []
    let b0 := if (0 : ℤ) = 0 then sim.leftHandBody else sim.rightHandBody
    let sim' := updateHandPosition sim 0 100 200 0 1
    let b := if (0 : ℤ) = 0 then sim'.leftHandBody else sim'.rightHandBody
    (-(1 / 20000) ≤ b.force.x - b0.force.x ∧ b.force.x - b0.force.x ≤ 1 / 20000) ∧
    (-(1 / 20000) ≤ b.force.y - b0.force.y ∧ b.force.y - b0.force.y ≤ 1 / 20000) ∧
    b.velocity = ⟨(100 - b0.position.x) * (6 / 5), (200 - b0.position.y) * (6 / 5)⟩ ∧
    b.position = ⟨100, 200⟩ :=
  updateHandPosition_contract (initSim []) 0 100 200 0 1
    (by norm_num) (by norm_num) (by norm_num) (by norm_num)

/-- C5: exactly two hand proxies exist across the whole session: the world
holds the two bodies created by the constructor, any sequence of
`updateHandPosition` calls preserves their identity (index 0 always reaches
the persistent left proxy, id 0, distinct from the right proxy, id 1), and an
index-0 update never touches the proxy that index 1 updates. -/
theorem hand_proxy_identity_stable (ps : List Body) (us : List HandUpdate) :
    (handBodies (runUpdates (initSim ps) us)).length = 2 ∧
    (runUpdates (initSim ps) us).leftHandBody.id = 0 ∧
    (runUpdates (initSim ps) us).rightHandBody.id = 1 ∧
    (runUpdates (initSim ps) us).leftHandBody.id ≠
      (runUpdates (initSim ps) us).rightHandBody.id ∧
    (∀ x y r1 r2,
      (updateHandPosition (runUpdates (initSim ps) us) 0 x y r1 r2).rightHandBody =
        (runUpdates (initSim ps) us).rightHandBody) ∧
    (∀ x y r1 r2,
      (updateHandPosition (runUpdates (initSim ps) us) 0 x y r1 r2).leftHandBody.id =
        (runUpdates (initSim ps) us).leftHandBody.id) := by
  have hid : ∀ (b : Body) (x y r1 r2 : ℚ), (updateHandBody b x y r1 r2).id = b.id := by
    intro b x y r1 r2; rfl
  have main : ∀ (us : List HandUpdate) (s : LiquidSimulation),
      (runUpdates s us).leftHandBody.id = s.leftHandBody.id ∧
      (runUpdates s us).rightHandBody.id = s.rightHandBody.id := by
    intro us
    induction us with
    | nil => intro s; exact ⟨rfl, rfl⟩
    | cons u rest ih =>
      intro s
      have step :
          (updateHandPosition s u.handIndex u.x u.y u.r1 u.r2).leftHandBody.id =
            s.leftHandBody.id ∧
          (updateHandPosition s u.handIndex u.x u.y u.r1 u.r2).rightHandBody.id =
            s.rightHandBody.id := by
        unfold updateHandPosition
        by_cases h : u.handIndex = 0 <;> simp [h, hid]
      have tail := ih (updateHandPosition s u.handIndex u.x u.y u.r1 u.r2)
      exact ⟨tail.1.trans step.1, tail.2.trans step.2⟩
  have h := main us (initSim ps)
  refine ⟨rfl, h.1, h.2, ?_, ?_, ?_⟩
  · rw [h.1, h.2]; exact Nat.zero_ne_one
  · intro x y r1 r2
    unfold updateHandPosition
    simp
  · intro x y r1 r2
    unfold updateHandPosition
    simp [hid]



/-! ### `updateParticleColors` (lines 197-216)

The source computes each particle's speed as
`Math.sqrt(velocity.x² + velocity.y²)`. A square root is in general
irrational, so the speed is passed alongside each particle and tied to its
velocity by `IsSpeedOf` (the defining property of the nonnegative square
root); everything after the `sqrt` is embedded verbatim. -/

/-- Source: `private maxVelocity: number = 15;` -/
def maxVelocity : ℚ := 15

/-- Source: `s` is the speed of a body with velocity (vx, vy):
`s = sqrt(vx² + vy²)`, characterized as the nonnegative number whose square
is `vx² + vy²`. -/
def IsSpeedOf (s vx vy : ℚ) : Prop := 0 ≤ s ∧ s * s = vx * vx + vy * vy

/-- Source: `const normalizedVelocity = Math.min(velocity / this.maxVelocity, 1);`
(the local `velocity` is the speed just computed). -/
def normalizedVelocity (speed : ℚ) : ℚ := min (speed / maxVelocity) 1

/-- Source: `const hue = (1 - normalizedVelocity) * 180;` -/
def hue (speed : ℚ) : ℚ := (1 - normalizedVelocity speed) * 180

/-- Source: `const saturation = 100;` -/
def saturation : ℚ := 100

/-- Source: `const lightness = 50 + normalizedVelocity * 20;` -/
def lightness (speed : ℚ) : ℚ := 50 + normalizedVelocity speed * 20

/-- Source: `particle.render.strokeStyle = hsl(hue, saturation%, lightness%);`
for one particle of the given speed. -/
def recolorParticle (particle : Body) (speed : ℚ) : Body :=
  { particle with
    strokeHue := hue speed, strokeSat := saturation, strokeLight := lightness speed }

/-- Source: `this.particles.forEach(particle => ...)`: every particle is restyled from
its own speed (each particle paired with its speed). -/
def updateParticleColors (ps : List (Body × ℚ)) : List Body :=
  ps.map fun p => recolorParticle p.1 p.2

/-- C6: each recoloring pass restyles every particle from its instantaneous
velocity only: with speed `s = sqrt(vx²+vy²)` and `n = min(s/15, 1)`, the new
hue is `(1-n)·180` (180 at rest, 0 at or above the cap) and the new lightness
is `50 + 20·n` (50 at rest, 70 at the cap); the result is independent of the
particle's previous render state (no state carried between frames). -/
theorem updateParticleColors_contract (ps : List (Body × ℚ)) (b : Body) (s : ℚ)
    (hmem : (b, s) ∈ ps) (hs : IsSpeedOf s b.velocity.x b.velocity.y) :
    recolorParticle b s ∈ updateParticleColors ps ∧
    (recolorParticle b s).strokeHue = (1 - min (s / 15) 1) * 180 ∧
    (recolorParticle b s).strokeSat = 100 ∧
    (recolorParticle b s).strokeLight = 50 + 20 * min (s / 15) 1 ∧
    (s = 0 → (recolorParticle b s).strokeHue = 180 ∧
      (recolorParticle b s).strokeLight = 50) ∧
    (15 ≤ s → (recolorParticle b s).strokeHue = 0 ∧
      (recolorParticle b s).strokeLight = 70) ∧
    (recolorParticle b s).velocity = b.velocity ∧
    (∀ b' : Body, (recolorParticle b' s).strokeHue = (recolorParticle b s).strokeHue ∧
      (recolorParticle b' s).strokeSat = (recolorParticle b s).strokeSat ∧
      (recolorParticle b' s).strokeLight = (recolorParticle b s).strokeLight) := by
  refine ⟨List.mem_map.mpr ⟨(b, s), hmem, rfl⟩, ?_, rfl, ?_, ?_, ?_, rfl,
    fun b' => ⟨rfl, rfl, rfl⟩⟩
  · simp [recolorParticle, hue, normalizedVelocity, maxVelocity]
  · simp [recolorParticle, lightness, normalizedVelocity, maxVelocity]; ring
  · intro h0
    subst h0
    constructor <;> norm_num [recolorParticle, hue, lightness, normalizedVelocity, maxVelocity]
  · intro hcap
    have hmin : min (s / 15) 1 = 1 := min_eq_right (by linarith)
    constructor <;>
      norm_num [recolorParticle, hue, lightness, normalizedVelocity, maxVelocity, hmin]

/-- Witness for C6: a particle with velocity (3, 4), speed 5, in a
one-particle list. -/
theorem updateParticleColors_contract_witness :
    (3 : ℚ) * 3 + 4 * 4 = 5 * 5 ∧
    (recolorParticle
        { id := 2, position := ⟨0, 0⟩, velocity := ⟨3, 4⟩, force := ⟨0, 0⟩,
          strokeHue := 77, strokeSat := 77, strokeLight := 77 } 5).strokeHue =
      (1 - min ((5 : ℚ) / 15) 1) * 180 := by
  refine ⟨by norm_num, ?_⟩
  exact (updateParticleColors_contract
    [({ id := 2, position := ⟨0, 0⟩, velocity := ⟨3, 4⟩, force := ⟨0, 0⟩,
        strokeHue := 77, strokeSat := 77, strokeLight := 77 }, 5)]
    { id := 2, position := ⟨0, 0⟩, velocity := ⟨3, 4⟩, force := ⟨0, 0⟩,
      strokeHue := 77, strokeSat := 77, strokeLight := 77 } 5
    (List.mem_singleton.mpr rfl) ⟨by norm_num, by norm_num⟩).2.1

/-- C7: recoloring is monotonic in speed: a particle at least as fast as
another is assigned a hue at most as large (hue never increases with speed). -/
theorem hue_antitone_in_speed (s1 s2 : ℚ) (h : s2 ≤ s1) : hue s1 ≤ hue s2 := by
  unfold hue normalizedVelocity maxVelocity
  have hdiv : s2 / 15 ≤ s1 / 15 := by linarith
  have hmin : min (s2 / 15) 1 ≤ min (s1 / 15) 1 := min_le_min hdiv le_rfl
  nlinarith [hmin]

/-- Witness for C7 at speeds 20 and 3. -/
theorem hue_antitone_in_speed_witness : hue 20 ≤ hue 3 :=
  hue_antitone_in_speed 20 3 (by norm_num)

/-- C10: any `handIndex` other than 0 — including 2 or negative values —
updates the right hand proxy: dispatch selects the left proxy only on strict
equality with 0, and no call (any index) touches any body besides the two
hand proxies (the particles are untouched). -/
theorem updateHandPosition_dispatch (sim : LiquidSimulation) (handIndex : ℤ)
    (x y r1 r2 : ℚ) (h : handIndex ≠ 0) :
    (updateHandPosition sim handIndex x y r1 r2).leftHandBody = sim.leftHandBody ∧
    (updateHandPosition sim handIndex x y r1 r2).rightHandBody =
      updateHandBody sim.rightHandBody x y r1 r2 ∧
    (∀ j : ℤ, (updateHandPosition sim j x y r1 r2).particles = sim.particles) := by
  refine ⟨?_, ?_, ?_⟩
  · unfold updateHandPosition; simp [h]
  · unfold updateHandPosition; simp [h]
  · intro j
    unfold updateHandPosition
    by_cases hj : j = 0 <;> simp [hj]

/-- Witness for C10 at handIndex = 2 on the freshly constructed simulation. -/
theorem updateHandPosition_dispatch_witness :
    (updateHandPosition (initSim []) 2 10 20 0 1).leftHandBody =
      (initSim []).leftHandBody ∧
    (updateHandPosition (initSim []) 2 10 20 0 1).rightHandBody =
      updateHandBody (initSim []).rightHandBody 10 20 0 1 ∧
    (∀ j : ℤ, (updateHandPosition (initSim []) j 10 20 0 1).particles =
      (initSim []).particles) :=
  updateHandPosition_dispatch (initSim []) 2 10 20 0 1 (by norm_num)



end LiquidSim

namespace HandTracking

/-! ### Asynchronous lifecycle of `HandTracking` (`App.tsx`, lines 108-261)

The effect closure owns a `mounted` flag, set to `false` by the cleanup
function. The asynchronous continuations — the `onResults` detection
callback and the `processFrame` loop — run on the single JS event-loop
thread, so each invocation sees a consistent `mounted` value. An event is
one such invocation; an effect is an observable action it performs. -/

inductive TrackEvent where
  /-- An `onResults` invocation delivering the detected hands' chosen
  landmark points (normalized). -/
  | results (hands : List (ℚ × ℚ))
  /-- One `processFrame` invocation. -/
  | frame
  /-- The effect cleanup function returned by `useEffect` (teardown). -/
  | teardown
  deriving DecidableEq, Repr

inductive TrackEffect where
  /-- A call `onHandUpdate(handIndex, x, y)`. -/
  | handUpdate (handIndex : ℕ) (x y : ℚ)
  /-- A call `handsRef.current.send({ image: videoRef.current })`. -/
  | sendFrame
  /-- Cleanup: `streamRef.current.getTracks().forEach(track => track.stop())`. -/
  | stopTracks
  /-- Cleanup: `handsRef.current.close()`. -/
  | closeDetector
  deriving DecidableEq, Repr

structure TrackState where
  mounted : Bool
  deriving DecidableEq, Repr

/-- Effects of one `onResults` invocation: `if (!mounted) return;` then, for
each detected hand with its index (`multiHandLandmarks.forEach`), the call
`onHandUpdate(index, x, y)` with the mapped coordinates. Canvas drawing is
not modelled; the guards for a missing canvas/context only return earlier. -/
def onResultsEffects (s : TrackState) (hands : List (ℚ × ℚ)) (W H cw ch : ℚ) :
    List TrackEffect :=
  if s.mounted then
    hands.enum.map fun p =>
      TrackEffect.handUpdate p.1 (mappedX p.2.1 W cw) (mappedY p.2.2 H ch)
  else []

/-- Effects of one `processFrame` invocation:
`if (!mounted || !videoRef.current || !handsRef.current) return;` then
`await handsRef.current.send(...)`. When mounted we over-approximate by
always sending (the ref-null guards only suppress further sends). -/
def processFrameEffects (s : TrackState) : List TrackEffect :=
  if s.mounted then [TrackEffect.sendFrame] else []

/-- One event-loop invocation. The cleanup function sets `mounted = false`
and releases the camera tracks and the detector; `onResults` and
`processFrame` leave the flag unchanged. -/
def trackStep (W H cw ch : ℚ) (s : TrackState) (e : TrackEvent) :
    TrackState × List TrackEffect :=
  match e with
  | .results hands => (s, onResultsEffects s hands W H cw ch)
  | .frame => (s, processFrameEffects s)
  | .teardown => ({ mounted := false }, [TrackEffect.stopTracks, TrackEffect.closeDetector])

/-- Run a sequence of invocations, collecting all effects in order. -/
def trackRun (W H cw ch : ℚ) (s : TrackState) : List TrackEvent → TrackState × List TrackEffect
  | [] => (s, [])
  | e :: es =>
    let step := trackStep W H cw ch s e
    let rest := trackRun W H cw ch step.1 es
    (rest.1, step.2 ++ rest.2)

theorem trackStep_unmounted_state (W H cw ch : ℚ) (s : TrackState)
    (hs : s.mounted = false) (e : TrackEvent) :
    (trackStep W H cw ch s e).1.mounted = false := by
  cases e <;> simp [trackStep, hs]

theorem trackStep_unmounted_effects (W H cw ch : ℚ) (s : TrackState)
    (hs : s.mounted = false) (e : TrackEvent) (eff : TrackEffect)
    (hmem : eff ∈ (trackStep W H cw ch s e).2) :
    eff = TrackEffect.stopTracks ∨ eff = TrackEffect.closeDetector := by
  cases e with
  | results hands =>
    simp [trackStep, onResultsEffects, hs] at hmem
  | frame =>
    simp [trackStep, processFrameEffects, hs] at hmem
  | teardown =>
    simp [trackStep] at hmem
    rcases hmem with h | h
    · exact Or.inl h
    · exact Or.inr h

theorem trackRun_unmounted_effects (W H cw ch : ℚ) (es : List TrackEvent) :
    ∀ s : TrackState, s.mounted = false → ∀ eff ∈ (trackRun W H cw ch s es).2,
      eff = TrackEffect.stopTracks ∨ eff = TrackEffect.closeDetector := by
  induction es with
  | nil => intro s _ eff hmem; simp [trackRun] at hmem
  | cons e rest ih =>
    intro s hs eff hmem
    simp only [trackRun, List.mem_append] at hmem
    rcases hmem with h | h
    · exact trackStep_unmounted_effects W H cw ch s hs e eff h
    · exact ih _ (trackStep_unmounted_state W H cw ch s hs e) eff h

theorem trackRun_append_state (W H cw ch : ℚ) (es1 es2 : List TrackEvent) :
    ∀ s : TrackState,
      (trackRun W H cw ch s (es1 ++ es2)).1 =
        (trackRun W H cw ch (trackRun W H cw ch s es1).1 es2).1 := by
  induction es1 with
  | nil => intro s; rfl
  | cons e rest ih => intro s; simp only [List.cons_append, trackRun]; exact ih _

theorem trackRun_teardown_unmounts (W H cw ch : ℚ) (s : TrackState)
    (pre : List TrackEvent) :
    (trackRun W H cw ch s (pre ++ [TrackEvent.teardown])).1.mounted = false := by
  rw [trackRun_append_state]
  rfl

/-- C8: the `mounted` flag guards every asynchronous continuation: whatever
invocations follow a teardown, none of them calls `onHandUpdate` and none
sends a frame to the detector — their results are discarded. -/
theorem teardown_discards_continuations (W H cw ch : ℚ) (s : TrackState)
    (pre post : List TrackEvent) :
    (∀ i x y, TrackEffect.handUpdate i x y ∉
      (trackRun W H cw ch (trackRun W H cw ch s (pre ++ [TrackEvent.teardown])).1 post).2) ∧
    TrackEffect.sendFrame ∉
      (trackRun W H cw ch (trackRun W H cw ch s (pre ++ [TrackEvent.teardown])).1 post).2 := by
  have hun := trackRun_teardown_unmounts W H cw ch s pre
  constructor
  · intro i x y hmem
    rcases trackRun_unmounted_effects W H cw ch post _ hun _ hmem with h | h <;> cases h
  · intro hmem
    rcases trackRun_unmounted_effects W H cw ch post _ hun _ hmem with h | h <;> cases h

end HandTracking

namespace HandTracking

/-! ### Camera stream lifecycle (`App.tsx`, lines 124-134 and 251-260)

Continuation after `await setupCamera(videoRef)` resolves:
```
const stream = await setupCamera(videoRef);
if (!mounted) return;
streamRef.current = stream;
setIsCameraReady(true);
```
and the effect cleanup:
```
mounted = false;
clearTimeout(initTimeout);
if (streamRef.current) {
  streamRef.current.getTracks().forEach(track => track.stop());
}
if (handsRef.current) { handsRef.current.close(); }
```
Streams are identified by a number; `acquired` records every stream
`getUserMedia` has returned, `stopped` every stream whose tracks were
stopped. -/

structure CamState where
  mounted : Bool
  streamRef : Option ℕ
  acquired : List ℕ
  stopped : List ℕ
  deriving DecidableEq, Repr

inductive CamEvent where
  /-- The `setupCamera` promise resolves with stream `sid` (the stream is
  live from this moment) and the continuation at line 126 runs. -/
  | cameraResolved (sid : ℕ)
  /-- The `catch` branch: `getUserMedia` rejected; no stream exists. -/
  | cameraFailed
  /-- The `catch` branch of `loadMediaPipeScript`: `setupCamera` never ran. -/
  | scriptFailed
  /-- The effect cleanup function (teardown). -/
  | cleanup
  deriving DecidableEq, Repr

/-- One step of the camera lifecycle. On `cameraResolved` the stream has been
acquired either way; only when still mounted is it recorded in `streamRef`
(`if (!mounted) return;` drops it otherwise, without stopping it). On
`cleanup`, tracks are stopped only for the stream held in `streamRef`. The
error branches only set UI state. Every branch is total: no step throws. -/
def camStep (s : CamState) (e : CamEvent) : CamState :=
  match e with
  | .cameraResolved sid =>
    if s.mounted then
      { s with acquired := s.acquired ++ [sid], streamRef := some sid }
    else
      { s with acquired := s.acquired ++ [sid] }
  | .cameraFailed => s
  | .scriptFailed => s
  | .cleanup =>
    match s.streamRef with
    | some sid => { s with mounted := false, stopped := s.stopped ++ [sid] }
    | none => { s with mounted := false }

/-- The state at mount: `let mounted = true;`, all refs null. -/
def camInit : CamState :=
  { mounted := true, streamRef := none, acquired := [], stopped := [] }

/-- Run a sequence of camera lifecycle steps. -/
def camRun (s : CamState) (es : List CamEvent) : CamState :=
  es.foldl camStep s

/-- C9 (code behaviour at the failing input): when teardown runs while
`setupCamera` is still pending and the camera promise then resolves with
stream 0, the stream is acquired but its tracks are never stopped — not even
by a repeated cleanup — because the `if (!mounted) return;` at line 126
discards the stream without stopping it and `streamRef` is never set. The
claim "every camera track acquired during initialization is stopped by
teardown" therefore fails on the code. -/
theorem camera_track_leak :
    (camRun camInit [CamEvent.cleanup, CamEvent.cameraResolved 0, CamEvent.cleanup]).acquired
        = [0] ∧
    (camRun camInit [CamEvent.cleanup, CamEvent.cameraResolved 0, CamEvent.cleanup]).stopped
        = [] := by
  constructor <;> rfl

end HandTracking

namespace LiquidSim

/-- Witness for C5: one index-0 update to target (5, 6) with draws 0 and 1. -/
theorem hand_proxy_identity_stable_witness :
    (handBodies (runUpdates (initSim []) [⟨0, 5, 6, 0, 1⟩])).length = 2 ∧
    (runUpdates (initSim []) [⟨0, 5, 6, 0, 1⟩]).leftHandBody.id = 0 ∧
    (runUpdates (initSim []) [⟨0, 5, 6, 0, 1⟩]).rightHandBody.id = 1 ∧
    (runUpdates (initSim []) [⟨0, 5, 6, 0, 1⟩]).leftHandBody.id ≠
      (runUpdates (initSim []) [⟨0, 5, 6, 0, 1⟩]).rightHandBody.id :=
  ⟨(hand_proxy_identity_stable [] [⟨0, 5, 6, 0, 1⟩]).1,
    (hand_proxy_identity_stable [] [⟨0, 5, 6, 0, 1⟩]).2.1,
    (hand_proxy_identity_stable [] [⟨0, 5, 6, 0, 1⟩]).2.2.1,
    (hand_proxy_identity_stable [] [⟨0, 5, 6, 0, 1⟩]).2.2.2.1⟩

end LiquidSim

namespace HandTracking

/-- Witness for C8: on a 1920×1080 viewport with a 640×480 frame, after a
teardown, a frame tick sends nothing and a detection result with one hand at
normalized (1/2, 1/2) updates nothing. -/
theorem teardown_discards_continuations_witness :
    (TrackEffect.handUpdate 0 960 540 ∉
      (trackRun 1920 1080 640 480
        (trackRun 1920 1080 640 480 ⟨true⟩ ([] ++ [TrackEvent.teardown])).1
        [TrackEvent.frame, TrackEvent.results [(1 / 2, 1 / 2)]]).2) ∧
    TrackEffect.sendFrame ∉
      (trackRun 1920 1080 640 480
        (trackRun 1920 1080 640 480 ⟨true⟩ ([] ++ [TrackEvent.teardown])).1
        [TrackEvent.frame, TrackEvent.results [(1 / 2, 1 / 2)]]).2 :=
  ⟨(teardown_discards_continuations 1920 1080 640 480 ⟨true⟩ []
      [TrackEvent.frame, TrackEvent.results [(1 / 2, 1 / 2)]]).1 0 960 540,
    (teardown_discards_continuations 1920 1080 640 480 ⟨true⟩ []
      [TrackEvent.frame, TrackEvent.results [(1 / 2, 1 / 2)]]).2⟩

end HandTracking
